import Mathlib

/-!
Verification of the value-representation lowering pass
(`src/compiler/turboshaft/machine-lowering-reducer.h`).

The reducer's handlers emit machine subgraphs; we give them an executable
value-level semantics: running the emitted subgraph on concrete inputs.
A deoptimization edge taken at runtime is modelled as `Except.error r`
with `r : DeoptimizeReason`; a fatal contract violation (a `DCHECK` /
`UNREACHABLE` on a malformed lowering request, which can never occur on
valid input) is modelled as `Option.none`.  Allocations performed along
the executed path are counted in the second component of the results of
the boxing handlers.

Machine words are `Nat` (with explicit `% 2^w` where the hardware wraps)
or `Int` for signed views.  64-bit floats are modelled by `F64` below:
NaN, signed infinities, and finite values as a sign bit plus a rational
magnitude.  This is a superset of the IEEE doubles; every operation the
reducer uses (IEEE equality, truncation toward zero, exact widening of
int32 to float64, sign-bit extraction, float min/max) is defined on it.

Layout constants (`BigInt` bitfield layout, `Map` bit-field masks, smi
range, instance-type codes) come from V8 headers that are not part of
this snapshot; their values are written out below with comments.  No
theorem depends on the particular numeric value of an instance-type
code, only on the ordering facts the source asserts (for example
`LAST_TYPE == LAST_JS_RECEIVER_TYPE`, asserted at line 245 of the
source, which makes the receiver range the top contiguous range).
-/

deriving instance DecidableEq for Except

namespace MLR

/-- Signed 32-bit view of a machine word (two's complement). -/
def toInt32 (n : Nat) : Int :=
  if n % 2^32 < 2^31 then ((n % 2^32 : Nat) : Int) else ((n % 2^32 : Nat) : Int) - 2^32

/-- Signed 64-bit view of a machine word (two's complement). -/
def toInt64 (n : Nat) : Int :=
  if n % 2^64 < 2^63 then ((n % 2^64 : Nat) : Int) else ((n % 2^64 : Nat) : Int) - 2^64

/-- Unsigned 32-bit word holding the two's-complement bits of `z`. -/
def word32OfInt (z : Int) : Nat := (z % (2^32 : Int)).toNat

/-- Unsigned 64-bit word holding the two's-complement bits of `z`. -/
def word64OfInt (z : Int) : Nat := (z % (2^64 : Int)).toNat

/-- Wrap an unbounded integer into the signed 32-bit range. -/
def wrap32 (z : Int) : Int := ((z + 2^31) % 2^32) - 2^31

/-- Wrap an unbounded integer into the signed 64-bit range. -/
def wrap64 (z : Int) : Int := ((z + 2^63) % 2^64) - 2^63

/-- `Word32Sub` of the assembler: subtraction mod `2^32`. -/
def word32Sub (a b : Nat) : Nat := (a + (2^32 - b % 2^32)) % 2^32

/-- `Word64Sub` of the assembler: subtraction mod `2^64`. -/
def word64Sub (a b : Nat) : Nat := (a + (2^64 - b % 2^64)) % 2^64

/-- `Word32ShiftLeft` of the assembler: shift, wrapping mod `2^32`. -/
def word32ShiftLeft (a k : Nat) : Nat := (a <<< k) % 2^32

/-- `Word64ShiftRightArithmetic(v, 63)`: the sign mask (all zeros or all
ones) of a 64-bit word, as used by the branch-free absolute value in the
arbitrary-precision-integer boxing path.  Defined for `v < 2^64`. -/
def word64Sar63 (v : Nat) : Nat := if v < 2^63 then 0 else 2^64 - 1

/-- Model of a 64-bit float: NaN, a signed infinity, or a finite value
given by its sign bit and its magnitude as a rational.  A genuine IEEE
double is a `finite` value with nonnegative representable magnitude;
all reducer operations are defined on the whole type. -/
inductive F64 where
  | nan : F64
  | inf : Bool → F64
  | finite : Bool → ℚ → F64
deriving DecidableEq

/-- Signed rational value of a finite float (`-0.0` and `+0.0` both have
value `0`). -/
def F64.val : F64 → ℚ
  | .nan => 0
  | .inf _ => 0
  | .finite s m => if s then -m else m

/-- Positive zero. -/
def f64PosZero : F64 := .finite false 0

/-- Negative zero (sign bit set, zero magnitude). -/
def f64NegZero : F64 := .finite true 0

/-- IEEE `Float64Equal`: false on any NaN operand; `-0.0 == +0.0`. -/
def Float64Equal : F64 → F64 → Bool
  | .nan, _ => false
  | _, .nan => false
  | .inf s, .inf t => s == t
  | .inf _, .finite _ _ => false
  | .finite _ _, .inf _ => false
  | .finite s m, .finite t n => decide ((if s then -m else m) = (if t then -n else n))

/-- `Int32LessThan(Float64ExtractHighWord32(f), 0)`: whether the sign bit
(the top bit of the high word of the IEEE encoding) is set.  For NaN the
source never consults this (a NaN always fails the preceding
`Float64Equal` exactness guard first), so the choice `false` is
unobservable. -/
def Float64HighWordIsNegative : F64 → Bool
  | .nan => false
  | .inf s => s
  | .finite s _ => s

/-- Truncation toward zero of the value of a float, as an unbounded
integer.  On NaN or infinity the hardware primitive the reducer uses is
undefined; the choice `0` is masked by the exactness guards that follow
every use. -/
def F64.truncVal : F64 → Int
  | .finite s m => let q : ℚ := if s then -m else m
                   q.num.tdiv q.den
  | _ => 0

/-- `TruncateFloat64ToInt32OverflowUndefined`: truncate toward zero; on
overflow the primitive is undefined, modelled as wrapping into int32
(any choice is masked by the exactness guard every caller emits). -/
def TruncateFloat64ToInt32OverflowUndefined (f : F64) : Int := wrap32 f.truncVal

/-- `TruncateFloat64ToInt64OverflowUndefined`: as above, for int64. -/
def TruncateFloat64ToInt64OverflowUndefined (f : F64) : Int := wrap64 f.truncVal

/-- `ChangeInt32ToFloat64` (exact for every int32); integer zero maps to
`+0.0`, matching the hardware conversion. -/
def ChangeInt32ToFloat64 (z : Int) : F64 :=
  if z < 0 then .finite true ((-z : Int) : ℚ) else .finite false (z : ℚ)

/-- `ChangeInt64ToFloat64`.  In this model the conversion is exact for
every int64; real hardware rounds magnitudes above `2^53`, which no
verified claim depends on. -/
def ChangeInt64ToFloat64 (z : Int) : F64 :=
  if z < 0 then .finite true ((-z : Int) : ℚ) else .finite false (z : ℚ)

/-- `ChangeUint32ToFloat64` (exact for every uint32). -/
def ChangeUint32ToFloat64 (n : Nat) : F64 := .finite false (n : ℚ)

/-- Strict float order used by min/max: false on NaN, with
`-inf < finite < +inf`. -/
def f64Lt : F64 → F64 → Bool
  | .nan, _ => false
  | _, .nan => false
  | .inf s, .inf t => s && !t
  | .inf s, .finite _ _ => s
  | .finite _ _, .inf t => !t
  | .finite s m, .finite t n => decide ((if s then -m else m) < (if t then -n else n))

/-- `Float64Max`: NaN-propagating, and `max(-0.0, +0.0) = +0.0`. -/
def Float64Max (a b : F64) : F64 :=
  match a, b with
  | .nan, _ => .nan
  | _, .nan => .nan
  | x, y =>
    if f64Lt x y then y
    else if f64Lt y x then x
    else match x, y with
         | .finite s m, .finite t _ => .finite (s && t) m
         | _, _ => x

/-- `Float64Min`: NaN-propagating, and `min(-0.0, +0.0) = -0.0`. -/
def Float64Min (a b : F64) : F64 :=
  match a, b with
  | .nan, _ => .nan
  | _, .nan => .nan
  | x, y =>
    if f64Lt x y then x
    else if f64Lt y x then y
    else match x, y with
         | .finite s m, .finite t _ => .finite (s || t) m
         | _, _ => x

/-- The deoptimization reasons used by the reducer (`DeoptimizeReason`
values appearing in the source; the full V8 enum is larger, but these
are the ones this pass emits). -/
inductive DeoptimizeReason where
  | kLostPrecision : DeoptimizeReason
  | kLostPrecisionOrNaN : DeoptimizeReason
  | kMinusZero : DeoptimizeReason
  | kNotAHeapNumber : DeoptimizeReason
  | kNotANumberOrBoolean : DeoptimizeReason
  | kNotANumberOrOddball : DeoptimizeReason
  | kNotAString : DeoptimizeReason
  | kNotAnArrayIndex : DeoptimizeReason
  | kNotASmi : DeoptimizeReason
deriving DecidableEq

/-- `CheckForMinusZeroMode`. -/
inductive MinusZeroMode where
  | kCheckForMinusZero : MinusZeroMode
  | kDontCheckForMinusZero : MinusZeroMode
deriving DecidableEq

/-- `ChangeOrDeoptOp::Kind`. -/
inductive ChangeOrDeoptKind where
  | kUint32ToInt32 : ChangeOrDeoptKind
  | kInt64ToInt32 : ChangeOrDeoptKind
  | kUint64ToInt32 : ChangeOrDeoptKind
  | kUint64ToInt64 : ChangeOrDeoptKind
  | kFloat64ToInt32 : ChangeOrDeoptKind
  | kFloat64ToInt64 : ChangeOrDeoptKind
deriving DecidableEq

/-- `ObjectIsOp::Kind`. -/
inductive ObjectIsKind where
  | kBigInt : ObjectIsKind
  | kBigInt64 : ObjectIsKind
  | kCallable : ObjectIsKind
  | kConstructor : ObjectIsKind
  | kDetectableCallable : ObjectIsKind
  | kNonCallable : ObjectIsKind
  | kReceiver : ObjectIsKind
  | kUndetectable : ObjectIsKind
  | kSmi : ObjectIsKind
  | kNumber : ObjectIsKind
  | kSymbol : ObjectIsKind
  | kString : ObjectIsKind
  | kArrayBufferView : ObjectIsKind
deriving DecidableEq

/-- `ObjectIsOp::InputAssumptions`. -/
inductive InputAssumptions where
  | kNone : InputAssumptions
  | kHeapObject : InputAssumptions
  | kBigInt : InputAssumptions
deriving DecidableEq

/-- `ConvertToObjectOp::Kind`. -/
inductive ConvertToObjectKind where
  | kBigInt : ConvertToObjectKind
  | kNumber : ConvertToObjectKind
  | kHeapNumber : ConvertToObjectKind
  | kSmi : ConvertToObjectKind
  | kBoolean : ConvertToObjectKind
  | kString : ConvertToObjectKind
deriving DecidableEq

/-- `ConvertToObjectOp::InputInterpretation`. -/
inductive InputInterpretation where
  | kSigned : InputInterpretation
  | kUnsigned : InputInterpretation
  | kCharCode : InputInterpretation
  | kCodePoint : InputInterpretation
deriving DecidableEq

/-- `ConvertObjectToPrimitiveOrDeoptOp::ObjectKind`. -/
inductive ObjectKind where
  | kSmi : ObjectKind
  | kNumber : ObjectKind
  | kNumberOrBoolean : ObjectKind
  | kNumberOrOddball : ObjectKind
  | kNumberOrString : ObjectKind
deriving DecidableEq

/-- `ConvertObjectToPrimitiveOrDeoptOp::PrimitiveKind`. -/
inductive PrimitiveKind where
  | kInt32 : PrimitiveKind
  | kInt64 : PrimitiveKind
  | kFloat64 : PrimitiveKind
  | kArrayIndex : PrimitiveKind
deriving DecidableEq

/-- `DoubleArrayMinMaxOp::Kind`. -/
inductive DoubleArrayMinMaxKind where
  | kMin : DoubleArrayMinMaxKind
  | kMax : DoubleArrayMinMaxKind
deriving DecidableEq

/-- `kMaxInt` (`INT32_MAX`), as an unsigned word. -/
def kMaxIntNat : Nat := 2^31 - 1

/-- `std::numeric_limits<int64_t>::max()`, as an unsigned word. -/
def int64MaxNat : Nat := 2^63 - 1

/-- `kMaxSafeIntegerUint64` (`2^53 - 1`), the largest integer magnitude a
float64 represents exactly, as a signed integer. -/
def kMaxSafeIntegerUint64 : Int := 2^53 - 1

/-- `BigInt::SignBits`: one bit at shift 0 (layout from
`src/objects/bigint.h`, not part of this snapshot). -/
def BigIntSignBitsMask : Nat := 1

/-- `BigInt::LengthBits`: 30 bits starting at shift 1. -/
def BigIntLengthBitsShift : Nat := 1

/-- `BigInt::LengthBits::kMask`. -/
def BigIntLengthBitsMask : Nat := (2^30 - 1) <<< 1

/-- `BigInt::LengthBits::encode(1)`. -/
def BigIntLengthBitsEncode1 : Nat := 1 <<< BigIntLengthBitsShift

/-- `Map::Bits1::IsCallableBit::kMask` (bit 1 of the map bit field;
layout from `src/objects/map.h`, not part of this snapshot). -/
def IsCallableBitMask : Nat := 2

/-- `Map::Bits1::IsUndetectableBit::kMask` (bit 4). -/
def IsUndetectableBitMask : Nat := 16

/-- `Map::Bits1::IsConstructorBit::kMask` (bit 6). -/
def IsConstructorBitMask : Nat := 64

/-- Instance-type codes (values from the generated
`src/objects/instance-type.h`, not part of this snapshot; only the
ordering facts matter: strings form the lowest contiguous range below
`FIRST_NONSTRING_TYPE`, and receivers form the topmost contiguous range,
`LAST_TYPE == LAST_JS_RECEIVER_TYPE` being a `static_assert` in the
source). -/
def FIRST_NONSTRING_TYPE : Nat := 128

/-- `SYMBOL_TYPE` (the first non-string type code). -/
def SYMBOL_TYPE : Nat := 128

/-- `ODDBALL_TYPE`. -/
def ODDBALL_TYPE : Nat := 131

/-- `FIRST_JS_RECEIVER_TYPE`: the receiver range is
`[FIRST_JS_RECEIVER_TYPE, LAST_TYPE]`. -/
def FIRST_JS_RECEIVER_TYPE : Nat := 1041

/-- `LAST_TYPE` (`== LAST_JS_RECEIVER_TYPE`). -/
def LAST_TYPE : Nat := 2118

/-- `FIRST_JS_ARRAY_BUFFER_VIEW_TYPE`. -/
def FIRST_JS_ARRAY_BUFFER_VIEW_TYPE : Nat := 1100

/-- `LAST_JS_ARRAY_BUFFER_VIEW_TYPE`. -/
def LAST_JS_ARRAY_BUFFER_VIEW_TYPE : Nat := 1101

/-- `String::kMaxOneByteCharCode` (255; from `src/objects/string.h`, not
part of this snapshot). -/
def kMaxOneByteCharCode : Nat := 255

/-- Identity tokens for the canonical read-only maps the reducer compares
against with `TaggedEqual` (each of these maps is a unique singleton in
V8, so pointer identity is modelled by an id). `0` stands for any other
map. -/
def bigintMapId : Nat := 1

/-- Identity token of the canonical heap-number map. -/
def heapNumberMapId : Nat := 2

/-- Identity token of the canonical boolean map (shared by the true and
false oddballs). -/
def booleanMapId : Nat := 3

/-- A map reference: identity token of the map plus the two fields the
reducer loads from maps (`ForMapInstanceType`, `ForMapBitField`). -/
structure MapRef where
  mapId : Nat
  instanceType : Nat
  bitField1 : Nat
deriving DecidableEq

/-- A heap object, with the fields the embedded handlers load: its map,
the `BigInt` bitfield and least-significant digit (meaningful when the
map is the bigint map), and the float64 payload (meaningful for heap
numbers and, at the same offset, the `ToNumberRaw` slot of oddballs —
the source asserts the offsets coincide). -/
structure HeapObj where
  map : MapRef
  bigintBitfield : Nat
  bigintDigit : Nat
  numberValue : F64
deriving DecidableEq

/-- A tagged (dynamic) value: an inline small integer or a heap object.
The reserved low tag bits of the machine word are abstracted into the
constructor; `IsSmi` below is the tag-bit test. -/
inductive Tagged where
  | smi : Int → Tagged
  | heap : HeapObj → Tagged
deriving DecidableEq

/-- Tag-bit test (`kSmiTagMask` / `kSmiTag`). -/
def IsSmi : Tagged → Bool
  | .smi _ => true
  | .heap _ => false

/-- Whether smi payloads are 32 bits (`SmiValuesAre32Bits`) or 31 bits;
a property of the target platform. -/
structure SmiCfg where
  smiValuesAre32Bits : Bool
deriving DecidableEq

/-- `Smi::kMaxValue` for the configuration, as an unsigned word. -/
def SmiCfg.smiMaxValueNat (cfg : SmiCfg) : Nat :=
  if cfg.smiValuesAre32Bits then 2^31 - 1 else 2^30 - 1

/-- Result of a boxing handler: the produced tagged value, described by
its canonical shape.  `tableString c` is the entry of the isolate-wide
single-character string table at index `c`; `seqTwoByteString len word
padZeroed` is a freshly allocated two-byte string with `len` code units
whose payload word is `word` and whose trailing padding word has been
zeroed when `padZeroed` is true. -/
inductive Boxed where
  | smi : Int → Boxed
  | heapNumber : F64 → Boxed
  | bigIntObj : Nat → Option Nat → Boxed
  | boolObj : Bool → Boxed
  | tableString : Nat → Boxed
  | seqTwoByteString : Nat → Nat → Bool → Boxed
deriving DecidableEq

/-- Result of an unboxing handler: a raw machine integer (given as its
signed value) or a raw float64. -/
inductive PrimValue where
  | int : Int → PrimValue
  | float : F64 → PrimValue
deriving DecidableEq

/-- A raw machine value handed to a handler, together with its register
representation (`RegisterRepresentation` of the source is the
constructor; words carry their unsigned bit pattern). -/
inductive MachineValue where
  | w32 : Nat → MachineValue
  | w64 : Nat → MachineValue
  | f64 : F64 → MachineValue
deriving DecidableEq

/-- `NeedsHeapObjectCheck`: only the empty assumption requires a smi
check. -/
def NeedsHeapObjectCheck : InputAssumptions → Bool
  | .kNone => true
  | .kHeapObject => false
  | .kBigInt => false

/-- Float64-to-int32 conversion with deopt guards: the
`kFloat64ToInt32` arm of `ReduceChangeOrDeopt` (also reached through
`ChangeFloat64ToInt32OrDeopt` from the guarded unboxing handler).
Truncate toward zero; deopt `kLostPrecisionOrNaN` unless widening the
truncated value back to float64 compares IEEE-equal to the input; under
minus-zero checking additionally deopt `kMinusZero` when the truncated
result is 0 and the input's high word is negative. -/
def ChangeFloat64ToInt32OrDeopt (f : F64) (mode : MinusZeroMode) :
    Except DeoptimizeReason Int :=
  let i32 := TruncateFloat64ToInt32OverflowUndefined f
  if Float64Equal (ChangeInt32ToFloat64 i32) f then
    if mode = .kCheckForMinusZero ∧ i32 = 0 ∧ Float64HighWordIsNegative f then
      .error .kMinusZero
    else .ok i32
  else .error .kLostPrecisionOrNaN

/-- Float64-to-int64 conversion with deopt guards: the
`kFloat64ToInt64` arm of `ReduceChangeOrDeopt`. -/
def ChangeFloat64ToInt64OrDeopt (f : F64) (mode : MinusZeroMode) :
    Except DeoptimizeReason Int :=
  let i64 := TruncateFloat64ToInt64OverflowUndefined f
  if Float64Equal (ChangeInt64ToFloat64 i64) f then
    if mode = .kCheckForMinusZero ∧ i64 = 0 ∧ Float64HighWordIsNegative f then
      .error .kMinusZero
    else .ok i64
  else .error .kLostPrecisionOrNaN

/-- `ReduceChangeOrDeopt`: numeric narrowing with deopt guards.  `none`
models an ill-typed request (input representation not matching the
kind), which the source rules out statically.  Results are the signed
values of the produced words. -/
def ReduceChangeOrDeopt (input : MachineValue) (kind : ChangeOrDeoptKind)
    (mode : MinusZeroMode) : Option (Except DeoptimizeReason Int) :=
  match kind, input with
  | .kUint32ToInt32, .w32 n =>
      some (if toInt32 n < 0 then .error .kLostPrecision else .ok (toInt32 n))
  | .kInt64ToInt32, .w64 n =>
      some (if word64OfInt (toInt32 n) = n % 2^64 then .ok (toInt32 n)
            else .error .kLostPrecision)
  | .kUint64ToInt32, .w64 n =>
      some (if n % 2^64 ≤ kMaxIntNat then .ok (toInt32 n)
            else .error .kLostPrecision)
  | .kUint64ToInt64, .w64 n =>
      some (if n % 2^64 ≤ int64MaxNat then .ok (toInt64 n)
            else .error .kLostPrecision)
  | .kFloat64ToInt32, .f64 f => some (ChangeFloat64ToInt32OrDeopt f mode)
  | .kFloat64ToInt64, .f64 f => some (ChangeFloat64ToInt64OrDeopt f mode)
  | _, _ => none

/-- The `kBigInt64` range check tail of `ReduceObjectIs`: bitfield zero
means canonical zero (fits); otherwise the length field must encode 1,
and the single digit must be at most `int64` max, or, when the sign bit
is set, exactly `2^63` (the magnitude of `int64` min). -/
def bigInt64FitsCheck (bitfield digit : Nat) : Nat :=
  if bitfield = 0 then 1
  else if ¬(bitfield &&& BigIntLengthBitsMask = BigIntLengthBitsEncode1) then 0
  else if digit ≤ int64MaxNat then 1
  else if ¬(bitfield &&& BigIntSignBitsMask = BigIntSignBitsMask) then 0
  else if digit = 2^63 then 1
  else 0

/-- Shared prologue of the type tests that inspect the map: under the
empty assumption a smi input short-circuits to `smiResult`; with a
heap-object (or bigint) assumption a smi input would make the handler
load fields from a non-object, a contract violation (`none`). -/
def smiCheckThen (input : Tagged) (a : InputAssumptions) (smiResult : Nat)
    (onHeap : HeapObj → Option Nat) : Option Nat :=
  match input with
  | .smi _ => if NeedsHeapObjectCheck a then some smiResult else none
  | .heap o => onHeap o

/-- `ReduceObjectIs`: dynamic type tests, producing a 0/1 word. -/
def ReduceObjectIs (input : Tagged) (kind : ObjectIsKind)
    (a : InputAssumptions) : Option Nat :=
  match kind with
  | .kBigInt =>
      if a = .kBigInt then
        match input with
        | .smi _ => none
        | .heap _ => some 1
      else
        smiCheckThen input a 0 fun o =>
          if o.map.mapId = bigintMapId then some 1 else some 0
  | .kBigInt64 =>
      if a = .kBigInt then
        match input with
        | .smi _ => none
        | .heap o => some (bigInt64FitsCheck o.bigintBitfield o.bigintDigit)
      else
        smiCheckThen input a 0 fun o =>
          if o.map.mapId = bigintMapId then
            some (bigInt64FitsCheck o.bigintBitfield o.bigintDigit)
          else some 0
  | .kCallable =>
      smiCheckThen input a 0 fun o =>
        some (if o.map.bitField1 &&& IsCallableBitMask = IsCallableBitMask
              then 1 else 0)
  | .kConstructor =>
      smiCheckThen input a 0 fun o =>
        some (if o.map.bitField1 &&& IsConstructorBitMask = IsConstructorBitMask
              then 1 else 0)
  | .kDetectableCallable =>
      smiCheckThen input a 0 fun o =>
        some (if o.map.bitField1 &&& (IsCallableBitMask ||| IsUndetectableBitMask)
                 = IsCallableBitMask then 1 else 0)
  | .kNonCallable =>
      smiCheckThen input a 0 fun o =>
        if ¬(o.map.bitField1 &&& IsCallableBitMask = 0) then some 0
        else some (if FIRST_JS_RECEIVER_TYPE ≤ o.map.instanceType then 1 else 0)
  | .kReceiver =>
      smiCheckThen input a 0 fun o =>
        some (if FIRST_JS_RECEIVER_TYPE ≤ o.map.instanceType then 1 else 0)
  | .kUndetectable =>
      smiCheckThen input a 0 fun o =>
        some (if o.map.bitField1 &&& IsUndetectableBitMask = IsUndetectableBitMask
              then 1 else 0)
  | .kSmi =>
      if ¬NeedsHeapObjectCheck a then some 0
      else some (if IsSmi input then 1 else 0)
  | .kNumber =>
      smiCheckThen input a 1 fun o =>
        some (if o.map.mapId = heapNumberMapId then 1 else 0)
  | .kSymbol =>
      smiCheckThen input a 0 fun o =>
        some (if o.map.instanceType = SYMBOL_TYPE then 1 else 0)
  | .kString =>
      smiCheckThen input a 0 fun o =>
        some (if o.map.instanceType < FIRST_NONSTRING_TYPE then 1 else 0)
  | .kArrayBufferView =>
      smiCheckThen input a 0 fun o =>
        some (if word32Sub o.map.instanceType FIRST_JS_ARRAY_BUFFER_VIEW_TYPE
                 < LAST_JS_ARRAY_BUFFER_VIEW_TYPE - FIRST_JS_ARRAY_BUFFER_VIEW_TYPE + 1
              then 1 else 0)

/-- `AllocateBigInt`: one allocation producing an arbitrary-precision
integer box.  `none` arguments model the `OpIndex::Invalid()` pair used
for the canonical zero (zero bitfield, no digit stored). -/
def AllocateBigInt : Option (Nat × Nat) → Boxed × Nat
  | none => (.bigIntObj 0 none, 1)
  | some (bitfield, digit) => (.bigIntObj bitfield (some digit), 1)

/-- `AllocateHeapNumberWithValue`: one allocation producing a float box. -/
def AllocateHeapNumberWithValue (value : F64) : Boxed × Nat :=
  (.heapNumber value, 1)

/-- `SmiTagOrOverflow` (31-bit smis only): tagging shifts left by one,
performed as an overflow-checked `value + value`; `none` is the overflow
exit.  The int32 add `v + v` overflows exactly when `v` is outside
`[-2^30, 2^30)`. -/
def SmiTagOrOverflow (v : Int) : Option Boxed :=
  if v + v < -(2^31) ∨ 2^31 ≤ v + v then none else some (.smi v)

/-- `ConvertFloat64ToNumber` / the float64 arm of the `kNumber` boxing
path: attempt exact truncation to int32 (with the minus-zero policy),
tag as a smi when in range, otherwise box the float. -/
def ConvertFloat64ToNumber (f : F64) (mode : MinusZeroMode) (cfg : SmiCfg) :
    Boxed × Nat :=
  let v32 := TruncateFloat64ToInt32OverflowUndefined f
  if Float64Equal f (ChangeInt32ToFloat64 v32) then
    if mode = .kCheckForMinusZero ∧ v32 = 0 ∧ Float64HighWordIsNegative f then
      AllocateHeapNumberWithValue f
    else if cfg.smiValuesAre32Bits then (.smi v32, 0)
    else match SmiTagOrOverflow v32 with
         | some b => (b, 0)
         | none => AllocateHeapNumberWithValue f
  else AllocateHeapNumberWithValue f

/-- The `single_code` tail of the `kString` boxing path: a code unit at
most `kMaxOneByteCharCode` reuses the precomputed single-character
string table (no allocation); otherwise a fresh one-unit two-byte
string is allocated, its padding zeroed, and the unit stored. -/
def stringFromSingleCode (code : Nat) : Boxed × Nat :=
  if code ≤ kMaxOneByteCharCode then (.tableString code, 0)
  else (.seqTwoByteString 1 code true, 1)

/-- `ReduceConvertToObject`: boxing of raw machine values into the
dynamic value encoding.  The machine-value constructor plays the role of
the `input_rep` argument; a mismatch between kind and representation, or
an interpretation a kind rejects, is a contract violation (`none`).
`bigEndian` is the target byte order (`V8_TARGET_BIG_ENDIAN`).  The
second component counts the allocations performed on the executed
path. -/
def ReduceConvertToObject (input : MachineValue) (kind : ConvertToObjectKind)
    (interp : InputInterpretation) (mode : MinusZeroMode) (cfg : SmiCfg)
    (bigEndian : Bool) : Option (Boxed × Nat) :=
  match kind with
  | .kBigInt =>
      match input with
      | .w64 n =>
          if n = 0 then some (AllocateBigInt none)
          else
            match interp with
            | .kSigned =>
                let bitfield := BigIntLengthBitsEncode1 ||| (n >>> 63)
                let signMask := word64Sar63 n
                let absoluteValue := word64Sub (n ^^^ signMask) signMask
                some (AllocateBigInt (some (bitfield, absoluteValue)))
            | .kUnsigned =>
                some (AllocateBigInt (some (BigIntLengthBitsEncode1, n)))
            | _ => none
      | _ => none
  | .kNumber =>
      match input, interp with
      | .w32 n, .kSigned =>
          if cfg.smiValuesAre32Bits then some (.smi (toInt32 n), 0)
          else
            some (match SmiTagOrOverflow (toInt32 n) with
                  | some b => (b, 0)
                  | none => AllocateHeapNumberWithValue
                              (ChangeInt32ToFloat64 (toInt32 n)))
      | .w32 n, .kUnsigned =>
          some (if n ≤ cfg.smiMaxValueNat then (.smi (n : Int), 0)
                else AllocateHeapNumberWithValue (ChangeUint32ToFloat64 n))
      | .w64 n, .kSigned =>
          if ¬(word64OfInt (toInt32 n) = n % 2^64) then
            some (AllocateHeapNumberWithValue (ChangeInt64ToFloat64 (toInt64 n)))
          else if cfg.smiValuesAre32Bits then some (.smi (toInt64 n), 0)
          else
            some (match SmiTagOrOverflow (toInt32 n) with
                  | some b => (b, 0)
                  | none => AllocateHeapNumberWithValue
                              (ChangeInt64ToFloat64 (toInt64 n)))
      | .w64 n, .kUnsigned =>
          some (if n ≤ cfg.smiMaxValueNat then (.smi (n : Int), 0)
                else AllocateHeapNumberWithValue (ChangeInt64ToFloat64 (toInt64 n)))
      | .f64 f, _ => some (ConvertFloat64ToNumber f mode cfg)
      | _, _ => none
  | .kHeapNumber =>
      match input, interp with
      | .f64 f, .kSigned => some (AllocateHeapNumberWithValue f)
      | _, _ => none
  | .kSmi =>
      match input, interp with
      | .w32 n, .kSigned => some (.smi (toInt32 n), 0)
      | _, _ => none
  | .kBoolean =>
      match input, interp with
      | .w32 n, .kSigned => some (.boolObj (decide (¬(n % 2^32 = 0))), 0)
      | _, _ => none
  | .kString =>
      match input with
      | .w32 n =>
          match interp with
          | .kCharCode => some (stringFromSingleCode (n &&& 0xFFFF))
          | .kCodePoint =>
              if n ≤ 0xFFFF then some (stringFromSingleCode n)
              else
                let lead := (n >>> 10) + (0xD800 - (0x10000 >>> 10))
                let trail := (n &&& 0x3FF) + 0xDC00
                let code := if bigEndian
                            then word32ShiftLeft lead 16 ||| trail
                            else word32ShiftLeft trail 16 ||| lead
                some (.seqTwoByteString 2 code true, 1)
          | _ => none
      | _ => none

/-- `ConvertHeapObjectToFloat64OrDeopt`: verify the heap object is a
number (or, per the input kind, a boolean or any oddball) and load its
float64 payload; the oddball `ToNumberRaw` slot sits at the same offset
as the heap-number payload (asserted in the source). -/
def ConvertHeapObjectToFloat64OrDeopt (o : HeapObj) (inputKind : ObjectKind) :
    Option (Except DeoptimizeReason F64) :=
  match inputKind with
  | .kSmi => none
  | .kNumberOrString => none
  | .kNumber =>
      if o.map.mapId = heapNumberMapId then some (.ok o.numberValue)
      else some (.error .kNotAHeapNumber)
  | .kNumberOrBoolean =>
      if o.map.mapId = heapNumberMapId then some (.ok o.numberValue)
      else if o.map.mapId = booleanMapId then some (.ok o.numberValue)
      else some (.error .kNotANumberOrBoolean)
  | .kNumberOrOddball =>
      if o.map.mapId = heapNumberMapId then some (.ok o.numberValue)
      else if o.map.instanceType = ODDBALL_TYPE then some (.ok o.numberValue)
      else some (.error .kNotANumberOrOddball)

/-- `ReduceConvertObjectToPrimitiveOrDeopt`: guarded unboxing.  `is64` is
the pointer width of the target (`Is64()`); `stringToArrayIndex` is the
external locale-independent string-to-array-index call, returning `-1`
as its failure sentinel. -/
def ReduceConvertObjectToPrimitiveOrDeopt (object : Tagged)
    (fromKind : ObjectKind) (toKind : PrimitiveKind) (mode : MinusZeroMode)
    (is64 : Bool) (stringToArrayIndex : HeapObj → Int) :
    Option (Except DeoptimizeReason PrimValue) :=
  match toKind with
  | .kInt32 =>
      match fromKind with
      | .kSmi =>
          match object with
          | .smi v => some (.ok (.int v))
          | .heap _ => some (.error .kNotASmi)
      | .kNumber =>
          match object with
          | .smi v => some (.ok (.int v))
          | .heap o =>
              if o.map.mapId = heapNumberMapId then
                some ((ChangeFloat64ToInt32OrDeopt o.numberValue mode).map .int)
              else some (.error .kNotAHeapNumber)
      | _ => none
  | .kInt64 =>
      match fromKind with
      | .kNumber =>
          match object with
          | .smi v => some (.ok (.int v))
          | .heap o =>
              if o.map.mapId = heapNumberMapId then
                some ((ChangeFloat64ToInt64OrDeopt o.numberValue mode).map .int)
              else some (.error .kNotAHeapNumber)
      | _ => none
  | .kFloat64 =>
      match object with
      | .smi v => some (.ok (.float (ChangeInt32ToFloat64 v)))
      | .heap o =>
          (ConvertHeapObjectToFloat64OrDeopt o fromKind).map fun e =>
            e.map .float
  | .kArrayIndex =>
      match fromKind with
      | .kNumberOrString =>
          match object with
          | .smi v => some (.ok (.int v))
          | .heap o =>
              if o.map.mapId = heapNumberMapId then
                if is64 then
                  let i64 := TruncateFloat64ToInt64OverflowUndefined o.numberValue
                  some (if Float64Equal (ChangeInt64ToFloat64 i64) o.numberValue then
                          if i64 < kMaxSafeIntegerUint64 then
                            if -kMaxSafeIntegerUint64 < i64 then .ok (.int i64)
                            else .error .kNotAnArrayIndex
                          else .error .kNotAnArrayIndex
                        else .error .kLostPrecisionOrNaN)
                else
                  let i32 := TruncateFloat64ToInt32OverflowUndefined o.numberValue
                  some (if Float64Equal (ChangeInt32ToFloat64 i32) o.numberValue then
                          .ok (.int i32)
                        else .error .kLostPrecisionOrNaN)
              else
                if o.map.instanceType < FIRST_NONSTRING_TYPE then
                  let index := stringToArrayIndex o
                  some (if index = -1 then .error .kNotAnArrayIndex
                        else .ok (.int index))
                else some (.error .kNotAString)
      | _ => none

/-- The reduction loop of `ReduceDoubleArrayMinMax`: a single forward
loop folding each loaded element into the accumulator via the branchless
float min/max.  The packed double-element buffer is given as the list of
its elements in index order. -/
def doubleMinMaxLoop (isMax : Bool) (accumulator : F64) :
    List F64 → F64
  | [] => accumulator
  | element :: rest =>
      doubleMinMaxLoop isMax
        (if isMax then Float64Max accumulator element
         else Float64Min accumulator element) rest

/-- `ReduceDoubleArrayMinMax`: seed `+inf` for min and `-inf` for max,
fold the elements, and re-box the final accumulator through the numeric
boxing path with minus-zero checking enabled. -/
def ReduceDoubleArrayMinMax (elements : List F64)
    (kind : DoubleArrayMinMaxKind) (cfg : SmiCfg) : Boxed × Nat :=
  let isMax := kind = .kMax
  let emptyValue : F64 := if isMax then .inf true else .inf false
  ConvertFloat64ToNumber (doubleMinMaxLoop isMax emptyValue elements)
    .kCheckForMinusZero cfg

/-- Disjoint bit-or is addition: packing a shifted word over a small
word. -/
theorem shiftLeft_or_eq_add {k b : Nat} (a : Nat) (hb : b < 2^k) :
    (a <<< k) ||| b = 2^k * a + b := by
  apply Nat.eq_of_testBit_eq
  intro i
  rw [Nat.testBit_or, Nat.testBit_shiftLeft, Nat.testBit_mul_pow_two_add a hb i]
  by_cases hik : i < k
  · have : ¬(i ≥ k) := by omega
    simp [hik, this]
  · have hge : i ≥ k := by omega
    have hbi : b.testBit i = false :=
      Nat.testBit_lt_two_pow (lt_of_lt_of_le hb (Nat.pow_le_pow_right (by norm_num) (by omega)))
    simp [hik, hge, hbi]

/-- XOR with an all-ones mask is complement: the identity behind the
branch-free absolute value of the bigint boxing path. -/
theorem xor_two_pow_sub_one {k v : Nat} (hv : v < 2^k) :
    v ^^^ (2^k - 1) = 2^k - 1 - v := by
  apply Nat.eq_of_testBit_eq
  intro i
  rw [Nat.testBit_xor, Nat.testBit_two_pow_sub_one]
  have h1 : 2^k - 1 - v = 2^k - (v + 1) := by omega
  rw [h1, Nat.testBit_two_pow_sub_succ hv]
  by_cases hik : i < k
  · cases hvi : v.testBit i <;> simp [hik, hvi]
  · have hb : v.testBit i = false :=
      Nat.testBit_lt_two_pow (lt_of_lt_of_le hv (Nat.pow_le_pow_right (by norm_num) (by omega)))
    simp [hik, hb]

/-- Masking with the single bit 2 yields 0 or 2, so equality with the
mask and disequality with 0 coincide. -/
theorem and_two_eq_two_iff (n : Nat) : n &&& 2 = 2 ↔ ¬(n &&& 2 = 0) := by
  have h : n &&& 2^1 = (n.testBit 1).toNat * 2^1 := Nat.and_two_pow n 1
  norm_num at h
  rw [h]
  cases n.testBit 1 <;> simp

/-- The fixed vocabulary of deoptimization reasons the spec names for
this pass. -/
def deoptReasonVocabulary : List DeoptimizeReason :=
  [.kLostPrecision, .kLostPrecisionOrNaN, .kMinusZero, .kNotAHeapNumber,
   .kNotANumberOrBoolean, .kNotANumberOrOddball, .kNotAString,
   .kNotAnArrayIndex, .kNotASmi]

/-- Every reason the embedded handlers can emit is in the vocabulary. -/
theorem mem_deoptReasonVocabulary (r : DeoptimizeReason) :
    r ∈ deoptReasonVocabulary := by
  cases r <;> simp [deoptReasonVocabulary]

/-- C1: for every lowering handler and every input, a runtime-data
mismatch is never returned as an error value: the deopt-guarded handlers
(`ReduceChangeOrDeopt`, `ReduceConvertObjectToPrimitiveOrDeopt`) produce
either a value or a deoptimization edge, and every deoptimization edge
carries a reason from the fixed vocabulary (the remaining handlers
produce plain values and have no failure channel at all, as their result
types show). -/
theorem claim1_deopt_is_only_error_channel :
    (∀ (input : MachineValue) (kind : ChangeOrDeoptKind) (mode : MinusZeroMode),
       match ReduceChangeOrDeopt input kind mode with
       | some (.error r) => r ∈ deoptReasonVocabulary
       | _ => True)
    ∧ (∀ (object : Tagged) (fromKind : ObjectKind) (toKind : PrimitiveKind)
         (mode : MinusZeroMode) (is64 : Bool) (s2ai : HeapObj → Int),
       match ReduceConvertObjectToPrimitiveOrDeopt object fromKind toKind mode
               is64 s2ai with
       | some (.error r) => r ∈ deoptReasonVocabulary
       | _ => True)
    ∧ (∀ r : DeoptimizeReason, r ∈ deoptReasonVocabulary) := by
  refine ⟨?_, ?_, mem_deoptReasonVocabulary⟩
  · intro input kind mode
    cases h : ReduceChangeOrDeopt input kind mode with
    | none => simp
    | some e =>
      cases e with
      | error r => exact mem_deoptReasonVocabulary r
      | ok v => simp
  · intro object fromKind toKind mode is64 s2ai
    cases h : ReduceConvertObjectToPrimitiveOrDeopt object fromKind toKind mode
        is64 s2ai with
    | none => simp
    | some e =>
      cases e with
      | error r => exact mem_deoptReasonVocabulary r
      | ok v => simp

/-- C2 counterexample: for input `-0.5` (a representable double) the
truncated integer result is 0 and the sign bit is set, yet the handler
does not take the minus-zero deopt — it deoptimizes with
"lost precision or NaN" at the preceding exactness guard.  So the
minus-zero deopt does not fire "exactly when the truncated result is 0
and the high 32 bits have the sign bit set". -/
theorem claim2_counterexample :
    ReduceChangeOrDeopt (.f64 (.finite true (Rat.mk' 1 2))) .kFloat64ToInt32
        .kCheckForMinusZero = some (.error .kLostPrecisionOrNaN)
    ∧ TruncateFloat64ToInt32OverflowUndefined (.finite true (Rat.mk' 1 2)) = 0
    ∧ Float64HighWordIsNegative (.finite true (Rat.mk' 1 2)) = true := by
  decide

/-- C2 (amended): for the float64-to-int32 and float64-to-int64
conversions, with minus-zero checking enabled, input `-0.0` always
deoptimizes with reason "minus zero"; input `+0.0` never deoptimizes
under either mode; and the minus-zero deopt fires exactly when the input
passes the exactness guard (re-widening the truncated integer compares
IEEE-equal to the input), the truncated integer result is 0, and the
high 32 bits of the input have the sign bit set. -/
theorem claim2_minus_zero_policy :
    (ReduceChangeOrDeopt (.f64 f64NegZero) .kFloat64ToInt32 .kCheckForMinusZero
        = some (.error .kMinusZero)
      ∧ ReduceChangeOrDeopt (.f64 f64NegZero) .kFloat64ToInt64 .kCheckForMinusZero
        = some (.error .kMinusZero))
    ∧ (∀ mode : MinusZeroMode,
        ReduceChangeOrDeopt (.f64 f64PosZero) .kFloat64ToInt32 mode = some (.ok 0)
        ∧ ReduceChangeOrDeopt (.f64 f64PosZero) .kFloat64ToInt64 mode = some (.ok 0))
    ∧ (∀ f : F64,
        ReduceChangeOrDeopt (.f64 f) .kFloat64ToInt32 .kCheckForMinusZero
            = some (.error .kMinusZero)
          ↔ (Float64Equal
                (ChangeInt32ToFloat64 (TruncateFloat64ToInt32OverflowUndefined f)) f
                = true
              ∧ TruncateFloat64ToInt32OverflowUndefined f = 0
              ∧ Float64HighWordIsNegative f = true))
    ∧ (∀ f : F64,
        ReduceChangeOrDeopt (.f64 f) .kFloat64ToInt64 .kCheckForMinusZero
            = some (.error .kMinusZero)
          ↔ (Float64Equal
                (ChangeInt64ToFloat64 (TruncateFloat64ToInt64OverflowUndefined f)) f
                = true
              ∧ TruncateFloat64ToInt64OverflowUndefined f = 0
              ∧ Float64HighWordIsNegative f = true)) := by
  refine ⟨by decide, fun mode => by cases mode <;> decide, ?_, ?_⟩
  · intro f
    simp only [ReduceChangeOrDeopt, ChangeFloat64ToInt32OrDeopt]
    split_ifs with h1 h2 <;> simp_all
  · intro f
    simp only [ReduceChangeOrDeopt, ChangeFloat64ToInt64OrDeopt]
    split_ifs with h1 h2 <;> simp_all

/-- C3: for every heap object the "non-callable" test returns 1 exactly
when the map's callable bit is clear and the instance type is in the
receiver range (`is_non_callable = !is_callable && is_receiver`);
"receiver" returns 1 iff the instance-type code is at least the first
receiver code; and "non-callable" is not the plain negation of
"callable" (witnessed by a non-receiver, non-callable object). -/
theorem claim3_non_callable :
    (∀ (o : HeapObj) (a : InputAssumptions),
       (ReduceObjectIs (.heap o) .kNonCallable a = some 1 ↔
          (ReduceObjectIs (.heap o) .kCallable a = some 0
            ∧ ReduceObjectIs (.heap o) .kReceiver a = some 1))
       ∧ (ReduceObjectIs (.heap o) .kReceiver a = some 1 ↔
            FIRST_JS_RECEIVER_TYPE ≤ o.map.instanceType))
    ∧ (∃ (o : HeapObj) (a : InputAssumptions) (x y : Nat),
        ReduceObjectIs (.heap o) .kCallable a = some x
        ∧ ReduceObjectIs (.heap o) .kNonCallable a = some y
        ∧ ¬(y = 1 - x)) := by
  constructor
  · intro o a
    constructor
    · simp only [ReduceObjectIs, smiCheckThen, IsCallableBitMask]
      split_ifs <;> simp_all [and_two_eq_two_iff]
    · simp only [ReduceObjectIs, smiCheckThen]
      split_ifs <;> simp_all
  · exact ⟨⟨⟨0, 0, 0⟩, 0, 0, .nan⟩, .kNone, 0, 0, by decide, by decide, by decide⟩

/-- C4: the "fits in 64 bits" test on an arbitrary-precision-integer
input returns 1 exactly when the packed bitfield is zero (canonical
zero), or the length field encodes digit count 1 and the single digit is
at most the signed-64 maximum or — with the sign bit set — exactly
`2^63`; in particular a one-digit negative value of magnitude exactly
`2^63` tests true. -/
theorem claim4_bigint64_fits :
    (∀ (o : HeapObj),
       ReduceObjectIs (.heap o) .kBigInt64 .kBigInt =
         some (if o.bigintBitfield = 0
                 ∨ (o.bigintBitfield &&& BigIntLengthBitsMask = BigIntLengthBitsEncode1
                    ∧ (o.bigintDigit ≤ int64MaxNat
                       ∨ (o.bigintBitfield &&& BigIntSignBitsMask = BigIntSignBitsMask
                          ∧ o.bigintDigit = 2^63)))
               then 1 else 0))
    ∧ (∀ (m : MapRef),
        ReduceObjectIs
          (.heap ⟨m, BigIntLengthBitsEncode1 ||| BigIntSignBitsMask, 2^63, .nan⟩)
          .kBigInt64 .kBigInt = some 1) := by
  constructor
  · intro o
    simp only [ReduceObjectIs, bigInt64FitsCheck, int64MaxNat, if_pos rfl]
    split_ifs <;> first | rfl | omega
  · intro m
    show some (bigInt64FitsCheck (BigIntLengthBitsEncode1 ||| BigIntSignBitsMask)
        (2^63)) = some 1
    decide

/-- C5: boxing an unsigned 32-bit value as a number tags it inline with
no allocation when it is at most the smi maximum, and otherwise performs
exactly one float-box allocation holding the exact float64 value of the
input. -/
theorem claim5_box_uint32 :
    ∀ (n : Nat), n < 2^32 →
      ∀ (mode : MinusZeroMode) (cfg : SmiCfg) (be : Bool),
        ReduceConvertToObject (.w32 n) .kNumber .kUnsigned mode cfg be =
          some (if n ≤ cfg.smiMaxValueNat then (.smi (n : Int), 0)
                else (.heapNumber (.finite false (n : ℚ)), 1)) := by
  intro n h mode cfg be
  rfl

/-- C5 witness: value 5 yields the smi 5 with zero allocations; value
3000000000 yields one float box holding exactly 3000000000.0. -/
theorem claim5_witness :
    ReduceConvertToObject (.w32 5) .kNumber .kUnsigned .kDontCheckForMinusZero
        ⟨false⟩ false = some (.smi 5, 0)
    ∧ ReduceConvertToObject (.w32 3000000000) .kNumber .kUnsigned
        .kDontCheckForMinusZero ⟨false⟩ false
      = some (.heapNumber (.finite false 3000000000), 1) :=
  ⟨(claim5_box_uint32 5 (by decide) .kDontCheckForMinusZero ⟨false⟩ false).trans
     (by decide),
   (claim5_box_uint32 3000000000 (by decide) .kDontCheckForMinusZero ⟨false⟩
       false).trans (by decide)⟩

/-- C6: boxing a 64-bit word as an arbitrary-precision integer: input 0
produces the canonical zero-length box under either interpretation; a
nonzero signed input produces a box whose sign bit equals the input's
sign, whose length field encodes 1, and whose single digit is the
absolute magnitude computed under two's-complement wraparound (so the
signed-64 minimum stores magnitude `2^63`); a nonzero unsigned input is
stored with length 1 and the digit as-is. -/
theorem claim6_box_bigint :
    ∀ (v : Nat), v < 2^64 →
      ∀ (mode : MinusZeroMode) (cfg : SmiCfg) (be : Bool),
        (v = 0 →
          ReduceConvertToObject (.w64 v) .kBigInt .kSigned mode cfg be
            = some (.bigIntObj 0 none, 1)
          ∧ ReduceConvertToObject (.w64 v) .kBigInt .kUnsigned mode cfg be
            = some (.bigIntObj 0 none, 1))
        ∧ (¬(v = 0) →
          (∃ bf : Nat,
            ReduceConvertToObject (.w64 v) .kBigInt .kSigned mode cfg be
              = some (.bigIntObj bf (some (toInt64 v).natAbs), 1)
            ∧ bf &&& BigIntSignBitsMask
                = (if toInt64 v < 0 then BigIntSignBitsMask else 0)
            ∧ bf &&& BigIntLengthBitsMask = BigIntLengthBitsEncode1)
          ∧ ReduceConvertToObject (.w64 v) .kBigInt .kUnsigned mode cfg be
              = some (.bigIntObj BigIntLengthBitsEncode1 (some v), 1)) := by
  intro v hv mode cfg be
  constructor
  · rintro rfl
    exact ⟨rfl, rfl⟩
  · intro hnz
    have hemb : ReduceConvertToObject (.w64 v) .kBigInt .kSigned mode cfg be
        = some (.bigIntObj (BigIntLengthBitsEncode1 ||| (v >>> 63))
            (some (word64Sub (v ^^^ word64Sar63 v) (word64Sar63 v))), 1) := by
      simp only [ReduceConvertToObject, AllocateBigInt, if_neg hnz]
    have hembU : ReduceConvertToObject (.w64 v) .kBigInt .kUnsigned mode cfg be
        = some (.bigIntObj BigIntLengthBitsEncode1 (some v), 1) := by
      simp only [ReduceConvertToObject, AllocateBigInt, if_neg hnz]
    refine ⟨⟨BigIntLengthBitsEncode1 ||| (v >>> 63), ?_, ?_, ?_⟩, hembU⟩
    · rw [hemb]
      by_cases hs : v < 2^63
      · have hshift : v >>> 63 = 0 := by
          rw [Nat.shiftRight_eq_div_pow]; exact Nat.div_eq_of_lt hs
        have hsar : word64Sar63 v = 0 := if_pos hs
        have habs : word64Sub (v ^^^ 0) 0 = v := by
          simp only [Nat.xor_zero, word64Sub]
          omega
        have hto : (toInt64 v).natAbs = v := by
          simp only [toInt64, Nat.mod_eq_of_lt hv]
          rw [if_pos hs]
          exact Int.natAbs_ofNat v
        rw [hshift, hsar, habs, hto]
      · have hshift : v >>> 63 = 1 := by
          rw [Nat.shiftRight_eq_div_pow]; omega
        have hsar : word64Sar63 v = 2^64 - 1 := if_neg hs
        have hxor : v ^^^ (2^64 - 1) = 2^64 - 1 - v := xor_two_pow_sub_one hv
        have habs : word64Sub (2^64 - 1 - v) (2^64 - 1) = 2^64 - v := by
          simp only [word64Sub]
          omega
        have hto : (toInt64 v).natAbs = 2^64 - v := by
          simp only [toInt64, Nat.mod_eq_of_lt hv]
          rw [if_neg hs]
          omega
        rw [hshift, hsar, hxor, habs, hto]
    · by_cases hs : v < 2^63
      · have hshift : v >>> 63 = 0 := by
          rw [Nat.shiftRight_eq_div_pow]; exact Nat.div_eq_of_lt hs
        have hto : ¬(toInt64 v < 0) := by
          simp only [toInt64, Nat.mod_eq_of_lt hv]
          rw [if_pos hs]
          omega
        rw [hshift, if_neg hto]
        decide
      · have hshift : v >>> 63 = 1 := by
          rw [Nat.shiftRight_eq_div_pow]; omega
        have hto : toInt64 v < 0 := by
          simp only [toInt64, Nat.mod_eq_of_lt hv]
          rw [if_neg hs]
          omega
        rw [hshift, if_pos hto]
        decide
    · by_cases hs : v < 2^63
      · have hshift : v >>> 63 = 0 := by
          rw [Nat.shiftRight_eq_div_pow]; exact Nat.div_eq_of_lt hs
        rw [hshift]
        decide
      · have hshift : v >>> 63 = 1 := by
          rw [Nat.shiftRight_eq_div_pow]; omega
        rw [hshift]
        decide

/-- C6 witness: the signed-64 minimum (word `2^63`) boxes with sign bit
set, length field 1, and stored magnitude `(toInt64 (2^63)).natAbs`,
which is `2^63`. -/
theorem claim6_witness :
    ∃ bf : Nat,
      ReduceConvertToObject (.w64 (2^63)) .kBigInt .kSigned
          .kDontCheckForMinusZero ⟨true⟩ false
        = some (.bigIntObj bf (some (toInt64 (2^63)).natAbs), 1)
      ∧ bf &&& BigIntSignBitsMask
          = (if toInt64 (2^63) < 0 then BigIntSignBitsMask else 0)
      ∧ bf &&& BigIntLengthBitsMask = BigIntLengthBitsEncode1 :=
  ((claim6_box_bigint (2^63) (by decide) .kDontCheckForMinusZero ⟨true⟩
      false).2 (by decide)).1

/-- The first code unit stored in a packed two-unit payload word, under
the given target byte order (the unit at the lower memory address). -/
def firstCodeUnit (bigEndian : Bool) (word : Nat) : Nat :=
  if bigEndian then word >>> 16 else word &&& 0xFFFF

/-- The second code unit stored in a packed two-unit payload word. -/
def secondCodeUnit (bigEndian : Bool) (word : Nat) : Nat :=
  if bigEndian then word &&& 0xFFFF else word >>> 16

/-- Modelled from the spec: the decode formula the spec prescribes for
the stored surrogate pair,
`((high - 0xDC00) | ((low - (0xD800 - (0x10000 >> 10))) << 10)) + 0x10000`,
with `low` the lead unit and `high` the trail unit.  Kept verbatim to be
checked against the code; see the C7 counterexample. -/
def specSurrogateDecode (low high : Nat) : Nat :=
  ((high - 0xDC00) ||| ((low - (0xD800 - (0x10000 >>> 10))) <<< 10)) + 0x10000

/-- The decode formula without the spurious final `+ 0x10000`: because
the lead offset `0xD800 - (0x10000 >> 10)` already accounts for the
`0x10000` base, adding it again over-counts.  This is the corrected
decoder the amended C7 uses. -/
def surrogateDecode (low high : Nat) : Nat :=
  (high - 0xDC00) ||| ((low - (0xD800 - (0x10000 >>> 10))) <<< 10)

/-- Packing two sixteen-bit units into one 32-bit word with
`Word32ShiftLeft`/`Word32BitwiseOr` and reading them back by mask and
shift. -/
theorem pack_units (hi lo : Nat) (hhi : hi < 2^16) (hlo : lo < 2^16) :
    (word32ShiftLeft hi 16 ||| lo) &&& 0xFFFF = lo
    ∧ (word32ShiftLeft hi 16 ||| lo) >>> 16 = hi := by
  have hsl : hi <<< 16 = 2^16 * hi := by rw [Nat.shiftLeft_eq]; ring
  have hlt : hi <<< 16 < 2^32 := by rw [hsl]; omega
  have hadd : word32ShiftLeft hi 16 ||| lo = 2^16 * hi + lo := by
    rw [word32ShiftLeft, Nat.mod_eq_of_lt hlt, shiftLeft_or_eq_add _ hlo]
  constructor
  · rw [hadd, show (0xFFFF : Nat) = 2^16 - 1 by norm_num,
      Nat.and_pow_two_sub_one_eq_mod]
    omega
  · rw [hadd, Nat.shiftRight_eq_div_pow]
    omega

/-- The corrected decoder inverts the lead/trail construction of the
source for every code point. -/
theorem surrogateDecode_leadTrail (cp : Nat) :
    surrogateDecode ((cp >>> 10) + (0xD800 - (0x10000 >>> 10)))
      ((cp &&& 0x3FF) + 0xDC00) = cp := by
  have hand : cp &&& 0x3FF = cp % 2^10 := by
    rw [show (0x3FF : Nat) = 2^10 - 1 by norm_num, Nat.and_pow_two_sub_one_eq_mod]
  have hshr : cp >>> 10 = cp / 2^10 := Nat.shiftRight_eq_div_pow cp 10
  simp only [surrogateDecode, hand, hshr, Nat.add_sub_cancel]
  rw [Nat.or_comm, shiftLeft_or_eq_add _ (Nat.mod_lt _ (by norm_num))]
  omega

/-- C7 counterexample: for code point `0x1F600` the lowered two-unit
payload word is `0xDE00D83D` (little-endian: lead `0xD83D` first, trail
`0xDE00` second), and the spec's decode formula yields `0x2F600`, not
`0x1F600` — the formula's trailing `+ 0x10000` double-counts the base
already contained in the lead offset. -/
theorem claim7_counterexample :
    ReduceConvertToObject (.w32 0x1F600) .kString .kCodePoint
        .kDontCheckForMinusZero ⟨true⟩ false
      = some (.seqTwoByteString 2 0xDE00D83D true, 1)
    ∧ specSurrogateDecode (firstCodeUnit false 0xDE00D83D)
        (secondCodeUnit false 0xDE00D83D) = 0x2F600
    ∧ ¬((0x2F600 : Nat) = 0x1F600) := by
  decide

/-- C7 (amended): for every code point in `[0x10000, 0x10FFFF]` the
lowering computes `lead = (cp >> 10) + (0xD800 - (0x10000 >> 10))` and
`trail = (cp & 0x3FF) + 0xDC00`, packs them into one 32-bit word ordered
by target byte order (lead in the first unit), zeroes the padding of the
fresh two-unit buffer, and the stored pair decoded via
`(high - 0xDC00) | ((low - (0xD800 - (0x10000 >> 10))) << 10)` (without
the spec's spurious `+ 0x10000`) reconstructs the code point exactly. -/
theorem claim7_surrogate_roundtrip :
    ∀ (cp : Nat), 0x10000 ≤ cp → cp ≤ 0x10FFFF →
      ∀ (mode : MinusZeroMode) (cfg : SmiCfg) (be : Bool),
        ∃ w : Nat,
          ReduceConvertToObject (.w32 cp) .kString .kCodePoint mode cfg be
            = some (.seqTwoByteString 2 w true, 1)
          ∧ firstCodeUnit be w = (cp >>> 10) + (0xD800 - (0x10000 >>> 10))
          ∧ secondCodeUnit be w = (cp &&& 0x3FF) + 0xDC00
          ∧ surrogateDecode (firstCodeUnit be w) (secondCodeUnit be w) = cp := by
  intro cp h1 h2 mode cfg be
  have hng : ¬(cp ≤ 0xFFFF) := by omega
  have hand : cp &&& 0x3FF = cp % 2^10 := by
    rw [show (0x3FF : Nat) = 2^10 - 1 by norm_num, Nat.and_pow_two_sub_one_eq_mod]
  have hshr : cp >>> 10 = cp / 2^10 := Nat.shiftRight_eq_div_pow cp 10
  have hoff : (0xD800 - (0x10000 >>> 10) : Nat) = 0xD7C0 := by decide
  have hlead16 : (cp >>> 10) + (0xD800 - (0x10000 >>> 10)) < 2^16 := by
    rw [hshr, hoff]; omega
  have htrail16 : (cp &&& 0x3FF) + 0xDC00 < 2^16 := by
    rw [hand]; omega
  cases be with
  | false =>
    refine ⟨word32ShiftLeft ((cp &&& 0x3FF) + 0xDC00) 16
        ||| ((cp >>> 10) + (0xD800 - (0x10000 >>> 10))), ?_, ?_, ?_, ?_⟩
    · simp only [ReduceConvertToObject, if_neg hng, Bool.false_eq_true, if_false]
    · simpa only [firstCodeUnit, if_neg (by decide : ¬(false = true))] using
        (pack_units _ _ htrail16 hlead16).1
    · simpa only [secondCodeUnit, if_neg (by decide : ¬(false = true))] using
        (pack_units _ _ htrail16 hlead16).2
    · rw [show firstCodeUnit false (word32ShiftLeft ((cp &&& 0x3FF) + 0xDC00) 16
          ||| ((cp >>> 10) + (0xD800 - (0x10000 >>> 10))))
          = (cp >>> 10) + (0xD800 - (0x10000 >>> 10)) from
          (pack_units _ _ htrail16 hlead16).1,
        show secondCodeUnit false (word32ShiftLeft ((cp &&& 0x3FF) + 0xDC00) 16
          ||| ((cp >>> 10) + (0xD800 - (0x10000 >>> 10))))
          = (cp &&& 0x3FF) + 0xDC00 from (pack_units _ _ htrail16 hlead16).2]
      exact surrogateDecode_leadTrail cp
  | true =>
    refine ⟨word32ShiftLeft ((cp >>> 10) + (0xD800 - (0x10000 >>> 10))) 16
        ||| ((cp &&& 0x3FF) + 0xDC00), ?_, ?_, ?_, ?_⟩
    · simp only [ReduceConvertToObject, if_neg hng, if_true]
    · simpa only [firstCodeUnit, if_pos rfl] using
        (pack_units _ _ hlead16 htrail16).2
    · simpa only [secondCodeUnit, if_pos rfl] using
        (pack_units _ _ hlead16 htrail16).1
    · rw [show firstCodeUnit true (word32ShiftLeft ((cp >>> 10)
          + (0xD800 - (0x10000 >>> 10))) 16 ||| ((cp &&& 0x3FF) + 0xDC00))
          = (cp >>> 10) + (0xD800 - (0x10000 >>> 10)) from
          (pack_units _ _ hlead16 htrail16).2,
        show secondCodeUnit true (word32ShiftLeft ((cp >>> 10)
          + (0xD800 - (0x10000 >>> 10))) 16 ||| ((cp &&& 0x3FF) + 0xDC00))
          = (cp &&& 0x3FF) + 0xDC00 from (pack_units _ _ hlead16 htrail16).1]
      exact surrogateDecode_leadTrail cp

/-- C7 witness: the amended round-trip at code point `0x1F600`,
little-endian. -/
theorem claim7_witness :
    ∃ w : Nat,
      ReduceConvertToObject (.w32 0x1F600) .kString .kCodePoint
          .kDontCheckForMinusZero ⟨true⟩ false
        = some (.seqTwoByteString 2 w true, 1)
      ∧ firstCodeUnit false w = ((0x1F600 : Nat) >>> 10) + (0xD800 - (0x10000 >>> 10))
      ∧ secondCodeUnit false w = ((0x1F600 : Nat) &&& 0x3FF) + 0xDC00
      ∧ surrogateDecode (firstCodeUnit false w) (secondCodeUnit false w) = 0x1F600 :=
  claim7_surrogate_roundtrip 0x1F600 (by decide) (by decide)
    .kDontCheckForMinusZero ⟨true⟩ false

/-- C8: unboxing a float-boxed numeric input as an array index on a
64-bit target deoptimizes with "lost precision or NaN" unless widening
the truncated pointer-width integer back to float64 equals the input
exactly, deoptimizes with "not an array index" unless the truncated
integer lies strictly between `-(2^53 - 1)` and `2^53 - 1` (the maximum
exactly representable integer magnitude), and otherwise returns the
truncated integer. -/
theorem claim8_array_index_unbox :
    ∀ (o : HeapObj) (mode : MinusZeroMode) (s2ai : HeapObj → Int),
      o.map.mapId = heapNumberMapId →
        ReduceConvertObjectToPrimitiveOrDeopt (.heap o) .kNumberOrString
            .kArrayIndex mode true s2ai =
          some (if Float64Equal
                    (ChangeInt64ToFloat64
                      (TruncateFloat64ToInt64OverflowUndefined o.numberValue))
                    o.numberValue then
                  if TruncateFloat64ToInt64OverflowUndefined o.numberValue
                        < kMaxSafeIntegerUint64
                      ∧ -kMaxSafeIntegerUint64
                        < TruncateFloat64ToInt64OverflowUndefined o.numberValue
                  then .ok (.int (TruncateFloat64ToInt64OverflowUndefined
                         o.numberValue))
                  else .error .kNotAnArrayIndex
                else .error .kLostPrecisionOrNaN) := by
  intro o mode s2ai hm
  simp only [ReduceConvertObjectToPrimitiveOrDeopt, if_pos hm]
  split_ifs <;> first | rfl | tauto

/-- C8 witness: a heap number holding `42.0` unboxes to index 42. -/
theorem claim8_witness :
    ReduceConvertObjectToPrimitiveOrDeopt
        (.heap ⟨⟨heapNumberMapId, 130, 0⟩, 0, 0, .finite false 42⟩)
        .kNumberOrString .kArrayIndex .kDontCheckForMinusZero true (fun _ => 0)
      = some (.ok (.int 42)) :=
  (claim8_array_index_unbox ⟨⟨heapNumberMapId, 130, 0⟩, 0, 0, .finite false 42⟩
      .kDontCheckForMinusZero (fun _ => 0) rfl).trans (by decide)

/-- The reduction loop is a left fold over the element list. -/
theorem doubleMinMaxLoop_eq_foldl (isMax : Bool) (acc : F64) (l : List F64) :
    doubleMinMaxLoop isMax acc l
      = l.foldl (fun a e => if isMax then Float64Max a e else Float64Min a e) acc := by
  induction l generalizing acc with
  | nil => rfl
  | cons e rest ih => simp [doubleMinMaxLoop, List.foldl, ih]

/-- C9: the double-array min/max reduction is a single forward loop
folding each element with float min/max into an accumulator seeded with
`+inf` for min and `-inf` for max, the final accumulator being re-boxed
through the numeric boxing path with minus-zero checking enabled; in
particular max over `[3.0, -1.0, 7.5]` yields the boxed number 7.5 (one
float-box allocation, as 7.5 is not an integer). -/
theorem claim9_double_array_min_max :
    (∀ (elements : List F64) (kind : DoubleArrayMinMaxKind) (cfg : SmiCfg),
       ReduceDoubleArrayMinMax elements kind cfg =
         ConvertFloat64ToNumber
           (elements.foldl
             (fun acc e =>
               if kind = .kMax then Float64Max acc e else Float64Min acc e)
             (if kind = .kMax then F64.inf true else F64.inf false))
           .kCheckForMinusZero cfg)
    ∧ (∀ cfg : SmiCfg,
        ReduceDoubleArrayMinMax
          [.finite false 3, .finite true 1, .finite false (Rat.mk' 15 2)]
          .kMax cfg
        = (.heapNumber (.finite false (Rat.mk' 15 2)), 1)) := by
  constructor
  · intro elements kind cfg
    cases kind <;>
      simp [ReduceDoubleArrayMinMax, doubleMinMaxLoop_eq_foldl]
  · intro cfg
    obtain ⟨b⟩ := cfg
    cases b <;> decide

/-- C10: string boxing under the char-code interpretation depends only
on the low 16 bits of the input word — congruent inputs modulo `2^16`
produce identical results — and any input whose low 16 bits are at most
the maximum one-byte char code returns the precomputed singleton-table
entry with no allocation. -/
theorem claim10_char_code :
    (∀ (a b : Nat) (mode : MinusZeroMode) (cfg : SmiCfg) (be : Bool),
       a % 2^16 = b % 2^16 →
         ReduceConvertToObject (.w32 a) .kString .kCharCode mode cfg be
           = ReduceConvertToObject (.w32 b) .kString .kCharCode mode cfg be)
    ∧ (∀ (a : Nat) (mode : MinusZeroMode) (cfg : SmiCfg) (be : Bool),
        a &&& 0xFFFF ≤ kMaxOneByteCharCode →
          ReduceConvertToObject (.w32 a) .kString .kCharCode mode cfg be
            = some (.tableString (a &&& 0xFFFF), 0)) := by
  constructor
  · intro a b mode cfg be h
    have h16 : a &&& 0xFFFF = b &&& 0xFFFF := by
      rw [show (0xFFFF : Nat) = 2^16 - 1 by norm_num,
        Nat.and_pow_two_sub_one_eq_mod, Nat.and_pow_two_sub_one_eq_mod, h]
    simp only [ReduceConvertToObject, h16]
  · intro a mode cfg be h2
    simp only [ReduceConvertToObject, stringFromSingleCode, if_pos h2]

/-- C10 witness: inputs `0x10041` and `0x41` coincide, and `0x10041`
returns the singleton-table entry for `0x41` with zero allocations. -/
theorem claim10_witness :
    ReduceConvertToObject (.w32 0x10041) .kString .kCharCode
        .kDontCheckForMinusZero ⟨true⟩ false
      = ReduceConvertToObject (.w32 0x41) .kString .kCharCode
          .kDontCheckForMinusZero ⟨true⟩ false
    ∧ ReduceConvertToObject (.w32 0x10041) .kString .kCharCode
        .kDontCheckForMinusZero ⟨true⟩ false
      = some (.tableString ((0x10041 : Nat) &&& 0xFFFF), 0) :=
  ⟨claim10_char_code.1 0x10041 0x41 .kDontCheckForMinusZero ⟨true⟩ false
     (by decide),
   claim10_char_code.2 0x10041 .kDontCheckForMinusZero ⟨true⟩ false (by decide)⟩

end MLR
